import Mathlib

/-!
# Verification of the chat application's connection/session manager

Shallow embedding of the server-side WebSocket handler
(`backend/utils/websocket.js`), the message schema
(`backend/models/Message.js`) and the client-side connection state
machine (the `ChatInterface` component), together with proofs of
claims about them.

JavaScript strings are modelled as lists of characters (`JStr`), so
that `String.prototype.trim` and `.length` become plain list
operations.  Side effects (sends, broadcasts, store writes,
ring-buffer pushes) are collected in an explicit effect trace in
occurrence order.
-/
/-- A JavaScript string, modelled as a list of characters. -/
abbrev JStr := List Char

/-- Characters removed by `String.prototype.trim` (the ASCII whitespace
and line-terminator characters relevant here). -/
def isJsWs (c : Char) : Bool :=
  c == ' ' || c == '\t' || c == '\n' || c == '\r' || c == '\x0b' || c == '\x0c'

/-- JavaScript `s.trim()`: remove leading and trailing whitespace. -/
def jsTrim (s : JStr) : JStr :=
  ((s.dropWhile isJsWs).reverse.dropWhile isJsWs).reverse

/-- Coerce a Lean string literal to a `JStr`. -/
def jstr (s : String) : JStr := s.data

/-- JavaScript `a || b` on an optional string field: `undefined` and the
empty string are falsy. -/
def jsOrStr (a : Option JStr) (b : JStr) : JStr :=
  match a with
  | none => b
  | some s => if s.isEmpty then b else s

/-- A chat message record `{username, message, timestamp}`.  Timestamps
are modelled as naturals (milliseconds since epoch). -/
structure ChatMessage where
  username : JStr
  message : JStr
  timestamp : Nat
deriving DecidableEq, Repr

/-- Per-connection session state kept in the `clients` map
(`username`; the `id`/`connectedAt` bookkeeping fields are not used by
any handler logic modelled here). -/
structure ClientInfo where
  username : JStr
deriving DecidableEq, Repr

/-- The WebSocket manager's mutable state: the `clients` map
(connection handle maps to client info, keys unique) and the in-memory
message history (the ring buffer). -/
structure ServerState where
  clients : List (Nat × ClientInfo)
  messageHistory : List ChatMessage
deriving DecidableEq, Repr

/-- Model of `Map.get`. -/
def mapGet : List (Nat × ClientInfo) → Nat → Option ClientInfo
  | [], _ => none
  | (k', v) :: rest, k => if k' = k then some v else mapGet rest k

/-- Model of `Map.set` (replaces an existing binding, else appends). -/
def mapSet : List (Nat × ClientInfo) → Nat → ClientInfo → List (Nat × ClientInfo)
  | [], k, v => [(k, v)]
  | (k', v') :: rest, k, v =>
    if k' = k then (k, v) :: rest else (k', v') :: mapSet rest k v

/-- Model of `Map.delete`. -/
def mapDelete : List (Nat × ClientInfo) → Nat → List (Nat × ClientInfo)
  | [], _ => []
  | (k', v') :: rest, k => if k' = k then rest else (k', v') :: mapDelete rest k

/-- Outbound protocol events (`type` tagged frames sent to clients). -/
inductive Event where
  | connection (message : JStr)
  | history (messages : List ChatMessage)
  | message (username message : JStr) (timestamp : Nat)
  | system (message : JStr) (timestamp : Nat)
  | error (message : JStr)
deriving DecidableEq, Repr

/-- One observable side effect of a handler, in occurrence order:
an attempted store write, a push onto the in-memory history,
a targeted send, or a broadcast to the current `clients` map. -/
inductive Effect where
  | storeAppend (m : ChatMessage)
  | ringAppend (m : ChatMessage)
  | send (conn : Nat) (e : Event)
  | broadcast (e : Event)
deriving DecidableEq, Repr

/-- The store (MongoDB) as seen by the handler: connectivity flag,
current records (for `Message.find()`), whether the fetch query throws,
and the result of `new Message(m).save()` (`none` models a save that
throws; `some r` is the persisted record, whose fields the store may
rewrite). -/
structure StoreEnv where
  connected : Bool
  records : List ChatMessage
  fetchFails : Bool
  saveResult : ChatMessage → Option ChatMessage

/-- Model of `arr.slice(-n)`: the last `n` elements (the whole list
when shorter). -/
def takeLast (n : Nat) (l : List α) : List α :=
  (l.reverse.take n).reverse

/-- Model of `this.messageHistory.push(messageData)` followed by the
truncation `if (length > 100) slice(-100)`. -/
def ringPush (h : List ChatMessage) (m : ChatMessage) : List ChatMessage :=
  let h2 := h ++ [m]
  if h2.length > 100 then takeLast 100 h2 else h2

/-- Handler `handleChatMessage(ws, username, message)`: validate the
body, construct the message with a server timestamp, attempt
persistence when the store is connected, push onto the in-memory
history, broadcast.  Returns the new state and the effect trace in
occurrence order. -/
def handleChatMessage (env : StoreEnv) (st : ServerState) (ws : Nat)
    (username message : Option JStr) (now : Nat) : ServerState × List Effect :=
  match mapGet st.clients ws with
  | none => (st, [])
  | some clientInfo =>
    let msg := message.getD []
    if message.isNone || msg.isEmpty || (jsTrim msg).length == 0 then
      (st, [.send ws (.error (jstr ("Message cannot be empty")))])
    else if msg.length > 1000 then
      (st, [.send ws (.error (jstr ("Message too long (max 1000 characters)")))])
    else
      let messageData : ChatMessage :=
        { username := jsOrStr username clientInfo.username
          message := jsTrim msg
          timestamp := now }
      let savedMessage :=
        if env.connected then (env.saveResult messageData).getD messageData
        else messageData
      let saveEffects : List Effect :=
        if env.connected then [.storeAppend messageData] else []
      ({ st with messageHistory := ringPush st.messageHistory messageData },
        saveEffects ++
          [.ringAppend messageData,
           .broadcast (.message savedMessage.username savedMessage.message
             savedMessage.timestamp)])

/-- Ordering used by `Message.find().sort({timestamp: -1})`:
newest (largest timestamp) first. -/
def tsGE (a b : ChatMessage) : Prop := b.timestamp ≤ a.timestamp

/-- Oldest-first ordering on chat messages. -/
def tsLE (a b : ChatMessage) : Prop := a.timestamp ≤ b.timestamp

instance : DecidableRel tsGE := fun a b =>
  inferInstanceAs (Decidable (b.timestamp ≤ a.timestamp))

instance : DecidableRel tsLE := fun a b =>
  inferInstanceAs (Decidable (a.timestamp ≤ b.timestamp))

instance : IsTotal ChatMessage tsGE :=
  ⟨fun a b => Nat.le_total b.timestamp a.timestamp⟩

instance : IsTrans ChatMessage tsGE :=
  ⟨fun _ _ _ h1 h2 => Nat.le_trans h2 h1⟩

/-- Model of `Message.find().sort({timestamp: -1}).limit(50)` followed
by `.reverse()`: the 50 newest records, returned oldest first. -/
def fetchRecent50 (records : List ChatMessage) : List ChatMessage :=
  ((List.insertionSort tsGE records).take 50).reverse

/-- Handler `handleUserJoin(ws, username)`: set the display name
(`username || "Anonymous"`), source history from the store when
connected (falling back to the last 50 in-memory entries on a fetch
error or when disconnected), send the history to the joiner only, then
broadcast the join announcement. -/
def handleUserJoin (env : StoreEnv) (st : ServerState) (ws : Nat)
    (username : Option JStr) (now : Nat) : ServerState × List Effect :=
  match mapGet st.clients ws with
  | none => (st, [])
  | some clientInfo =>
    let clientInfo2 : ClientInfo :=
      { clientInfo with username := jsOrStr username (jstr ("Anonymous")) }
    let st2 : ServerState :=
      { st with clients := mapSet st.clients ws clientInfo2 }
    let history : List ChatMessage :=
      if env.connected then
        if env.fetchFails then takeLast 50 st2.messageHistory
        else fetchRecent50 env.records
      else takeLast 50 st2.messageHistory
    (st2,
      [.send ws (.history history),
       .broadcast (.system (clientInfo2.username ++ jstr (" joined the chat")) now)])

/-- Handler `handleConnection(ws)`: register the connection with
display name "Anonymous" and send the `connection` greeting to it. -/
def handleConnection (st : ServerState) (ws : Nat) : ServerState × List Effect :=
  ({ st with clients := mapSet st.clients ws ⟨jstr ("Anonymous")⟩ },
    [.send ws (.connection (jstr ("Connected to chat server")))])

/-- The name used in a leave announcement:
`clientInfo?.username || "Anonymous"`. -/
def lastKnownName (st : ServerState) (ws : Nat) : JStr :=
  match mapGet st.clients ws with
  | some ci => if ci.username.isEmpty then jstr ("Anonymous") else ci.username
  | none => jstr ("Anonymous")

/-- Handler `handleDisconnection(ws)`: look up the last-known name,
delete the registry entry, then broadcast the leave announcement (to
the clients remaining after the deletion). -/
def handleDisconnection (st : ServerState) (ws : Nat) (now : Nat) :
    ServerState × List Effect :=
  let username := lastKnownName st ws
  ({ st with clients := mapDelete st.clients ws },
    [.broadcast (.system (username ++ jstr (" left the chat")) now)])

/-- An inbound client-to-server frame (the two kinds `handleMessage`
dispatches on). -/
inductive Frame where
  | join (username : Option JStr)
  | message (username message : Option JStr)

/-- Dispatch one inbound frame from connection `ws`. -/
def handleFrame (env : StoreEnv) (st : ServerState) (ws : Nat) (f : Frame)
    (now : Nat) : ServerState × List Effect :=
  match f with
  | .join u => handleUserJoin env st ws u now
  | .message u m => handleChatMessage env st ws u m now

/-- One handled inbound frame together with its environment: the store
state at that instant, the originating connection, and the server
clock value. -/
structure Step where
  env : StoreEnv
  ws : Nat
  frame : Frame
  now : Nat

/-- Run a sequence of inbound frames, accumulating the effect traces. -/
def runServer : ServerState → List Step → ServerState × List Effect
  | st, [] => (st, [])
  | st, s :: rest =>
    let r1 := handleFrame s.env st s.ws s.frame s.now
    let r2 := runServer r1.1 rest
    (r2.1, r1.2 ++ r2.2)

/-- The messages pushed onto the in-memory history during a trace, in
order (the accepted messages). -/
def ringAppends (effs : List Effect) : List ChatMessage :=
  effs.filterMap fun e =>
    match e with
    | .ringAppend m => some m
    | _ => none

/-- The validation of `messageSchema` in `backend/models/Message.js`:
both string fields are trimmed by the schema, required (non-empty), and
bounded (`maxlength` 50 for the username, 1000 for the body). -/
def messageSchemaValid (m : ChatMessage) : Bool :=
  !(jsTrim m.username).isEmpty && (jsTrim m.username).length ≤ 50 &&
  !(jsTrim m.message).isEmpty && (jsTrim m.message).length ≤ 1000

/-- The client-side connection record: the reconnect attempt counter,
the identities of all live (scheduled, not yet fired or cancelled)
reconnect timers, the timer id held in `reconnectTimeoutRef.current`,
and a fresh-id counter for created timers. -/
structure ClientState where
  reconnectAttempts : Nat
  pendingTimers : List Nat
  timerRef : Option Nat
  nextTimerId : Nat
deriving DecidableEq, Repr

/-- The client state on first render: no attempts, no timers. -/
def initialClient : ClientState :=
  { reconnectAttempts := 0, pendingTimers := [], timerRef := none,
    nextTimerId := 0 }

/-- The constant `maxReconnectAttempts = 5`. -/
def maxReconnectAttempts : Nat := 5

/-- Handler `ws.onclose`: on an unclean close while attempts are below
the maximum, increment the counter, compute the backoff delay
`min(1000 * 2^(attempts-1), 10000)` and schedule a reconnect timer by
assigning to `reconnectTimeoutRef.current` a newly created timer — the
ref is overwritten, with no `clearTimeout` of any previously pending
timer.  Returns the new state and the scheduled delay (`none` when no
timer is scheduled). -/
def wsOnClose (cs : ClientState) (wasClean : Bool) : ClientState × Option Nat :=
  if !wasClean && cs.reconnectAttempts < maxReconnectAttempts then
    let attempts := cs.reconnectAttempts + 1
    let delay := min (1000 * 2 ^ (attempts - 1)) 10000
    let tid := cs.nextTimerId
    ({ cs with
        reconnectAttempts := attempts
        pendingTimers := cs.pendingTimers ++ [tid]
        timerRef := some tid
        nextTimerId := tid + 1 }, some delay)
  else (cs, none)

/-- The effect cleanup: `clearTimeout` of `reconnectTimeoutRef.current`
when a ref is held — cancels that one timer. -/
def effectCleanup (cs : ClientState) : ClientState :=
  match cs.timerRef with
  | some t => { cs with pendingTimers := cs.pendingTimers.filter (· ≠ t) }
  | none => cs

/-- Run `n` consecutive unclean closures, collecting the scheduled
delays in order. -/
def runCloses : ClientState → Nat → ClientState × List Nat
  | cs, 0 => (cs, [])
  | cs, n + 1 =>
    let r1 := wsOnClose cs false
    let r2 := runCloses r1.1 n
    (r2.1, (r1.2.map fun d => [d]).getD [] ++ r2.2)

/-- The locally constructed `messageData` record for an accepted frame:
frame username (or the session's stored name when the frame's field is
falsy), trimmed body, server-assigned timestamp. -/
def messageDataOf (u m : Option JStr) (ci : ClientInfo) (now : Nat) :
    ChatMessage :=
  { username := jsOrStr u ci.username
    message := jsTrim (m.getD [])
    timestamp := now }

/-- The `savedMessage` value: the persisted record when the store is
connected and the save succeeds, else the local record. -/
def savedMessageOf (env : StoreEnv) (md : ChatMessage) : ChatMessage :=
  if env.connected then (env.saveResult md).getD md else md

/-- The history list a join sources, as a function of the store
environment and the current in-memory buffer. -/
def sourcedHistory (env : StoreEnv) (buffer : List ChatMessage) :
    List ChatMessage :=
  if env.connected then
    if env.fetchFails then takeLast 50 buffer
    else fetchRecent50 env.records
  else takeLast 50 buffer

/-- A store environment with the store disconnected. -/
def envDisconnected : StoreEnv := ⟨false, [], false, fun _ => none⟩

/-- A connected store environment whose saves succeed and echo the
record unchanged. -/
def envEcho : StoreEnv := ⟨true, [], false, fun md => some md⟩

/-- A connected store environment whose saves succeed but rewrite the
timestamp (store-assigned timestamp). -/
def envRewrites : StoreEnv :=
  ⟨true, [], false, fun md => some ⟨md.username, md.message, md.timestamp + 1⟩⟩

/-- A registry with two joined connections and an empty buffer. -/
def stTwo : ServerState := ⟨[(0, ⟨jstr ("alice")⟩), (1, ⟨jstr ("bob")⟩)], []⟩

/-- A message body of 1000 non-blank characters plus one trailing
space: trimmed length 1000, raw length 1001. -/
def longBody : JStr := List.replicate 1000 'a' ++ [' ']

/-- A 51-character username. -/
def longName : JStr := List.replicate 51 'b'

/-- Was this effect a ring-buffer append? -/
def isRingAppend : Effect → Bool
  | .ringAppend _ => true
  | _ => false

/-- Was this effect an attempted store write? -/
def isStoreAppend : Effect → Bool
  | .storeAppend _ => true
  | _ => false

/-- A demonstration run: one join and two accepted messages. -/
def stepsDemo : List Step :=
  [⟨envDisconnected, 0, .join (some (jstr ("alice"))), 1⟩,
   ⟨envDisconnected, 0, .message none (some (jstr ("one"))), 2⟩,
   ⟨envEcho, 1, .message (some (jstr ("bob"))) (some (jstr ("two"))), 3⟩]

/-- The client state after one unclean closure: one attempt made,
timer id 0 pending and held in the ref. -/
def clientAfterOneClose : ClientState :=
  { reconnectAttempts := 1, pendingTimers := [0], timerRef := some 0,
    nextTimerId := 1 }

/-! ## Theorems -/

theorem takeLast_length (n : Nat) (l : List α) :
    (takeLast n l).length = min n l.length := by
  simp [takeLast]

theorem takeLast_of_le {n : Nat} {l : List α} (h : l.length ≤ n) :
    takeLast n l = l := by
  have hr : l.reverse.length ≤ n := by simpa using h
  simp [takeLast, List.take_of_length_le hr]

theorem take_append_take (n : Nat) (a b : List α) :
    (a ++ b.take n).take n = (a ++ b).take n := by
  rw [List.take_append_eq_append_take, List.take_append_eq_append_take,
    List.take_take]
  have : min (n - a.length) n = n - a.length := by omega
  rw [this]

theorem takeLast_append_takeLast (n : Nat) (a b : List α) :
    takeLast n (takeLast n a ++ b) = takeLast n (a ++ b) := by
  unfold takeLast
  rw [List.reverse_append, List.reverse_reverse, List.reverse_append,
    take_append_take]

theorem takeLast_sublist (n : Nat) (l : List α) :
    List.Sublist (takeLast n l) l := by
  have h1 : List.Sublist (l.reverse.take n) l.reverse :=
    List.take_sublist n l.reverse
  have h2 := h1.reverse
  simpa [takeLast] using h2

theorem ringPush_eq_takeLast (h : List ChatMessage) (m : ChatMessage) :
    ringPush h m = takeLast 100 (h ++ [m]) := by
  simp only [ringPush]
  split
  · rfl
  · next hle =>
    rw [takeLast_of_le]
    omega

theorem fetchRecent50_length_le (records : List ChatMessage) :
    (fetchRecent50 records).length ≤ 50 := by
  simp only [fetchRecent50, List.length_reverse, List.length_take]
  omega

theorem fetchRecent50_sorted (records : List ChatMessage) :
    (fetchRecent50 records).Pairwise tsLE := by
  have h1 : (List.insertionSort tsGE records).Pairwise tsGE :=
    List.sorted_insertionSort tsGE records
  have h2 : ((List.insertionSort tsGE records).take 50).Pairwise tsGE :=
    h1.sublist (List.take_sublist 50 _)
  unfold fetchRecent50
  rw [List.pairwise_reverse]
  exact h2.imp fun h => h

theorem takeLast_sorted {l : List ChatMessage} (h : l.Pairwise tsLE) (n : Nat) :
    (takeLast n l).Pairwise tsLE :=
  h.sublist (takeLast_sublist n l)

theorem jsTrim_nil : jsTrim [] = [] := rfl

/-- The first guard `!message || message.trim().length === 0` holds
exactly when the body is empty after trimming. -/
theorem emptyGuard_iff (m : Option JStr) :
    (m.isNone || (m.getD []).isEmpty || ((jsTrim (m.getD [])).length == 0)) = true
      ↔ (jsTrim (m.getD [])).length = 0 := by
  cases m with
  | none => simp [jsTrim]
  | some s =>
    cases s with
    | nil => simp [jsTrim]
    | cons c cs => simp [List.isEmpty]

theorem handleChatMessage_noClient (env : StoreEnv) (st : ServerState)
    (ws : Nat) (u m : Option JStr) (now : Nat)
    (h : mapGet st.clients ws = none) :
    handleChatMessage env st ws u m now = (st, []) := by
  unfold handleChatMessage
  rw [h]

theorem handleChatMessage_rejected_empty (env : StoreEnv) (st : ServerState)
    (ws : Nat) (u m : Option JStr) (now : Nat) (ci : ClientInfo)
    (hci : mapGet st.clients ws = some ci)
    (h : (jsTrim (m.getD [])).length = 0) :
    handleChatMessage env st ws u m now =
      (st, [.send ws (.error (jstr ("Message cannot be empty")))]) := by
  unfold handleChatMessage
  rw [hci]
  have hcond : (m.isNone || (m.getD []).isEmpty ||
      ((jsTrim (m.getD [])).length == 0)) = true :=
    (emptyGuard_iff m).mpr h
  simp [hcond]

theorem handleChatMessage_rejected_long (env : StoreEnv) (st : ServerState)
    (ws : Nat) (u m : Option JStr) (now : Nat) (ci : ClientInfo)
    (hci : mapGet st.clients ws = some ci)
    (hne : (jsTrim (m.getD [])).length ≠ 0)
    (hlen : (m.getD []).length > 1000) :
    handleChatMessage env st ws u m now =
      (st, [.send ws (.error (jstr ("Message too long (max 1000 characters)")))]) := by
  unfold handleChatMessage
  rw [hci]
  have hcond : (m.isNone || (m.getD []).isEmpty ||
      ((jsTrim (m.getD [])).length == 0)) = false := by
    rcases hb : (m.isNone || (m.getD []).isEmpty ||
      ((jsTrim (m.getD [])).length == 0)) with _ | _
    · rfl
    · exact absurd ((emptyGuard_iff m).mp hb) hne
  simp [hcond, hlen]

theorem handleChatMessage_accepted (env : StoreEnv) (st : ServerState)
    (ws : Nat) (u m : Option JStr) (now : Nat) (ci : ClientInfo)
    (hci : mapGet st.clients ws = some ci)
    (hne : (jsTrim (m.getD [])).length ≠ 0)
    (hlen : (m.getD []).length ≤ 1000) :
    handleChatMessage env st ws u m now =
      ({ st with
          messageHistory := ringPush st.messageHistory (messageDataOf u m ci now) },
        (if env.connected then [.storeAppend (messageDataOf u m ci now)] else []) ++
          [.ringAppend (messageDataOf u m ci now),
           .broadcast (.message
             (savedMessageOf env (messageDataOf u m ci now)).username
             (savedMessageOf env (messageDataOf u m ci now)).message
             (savedMessageOf env (messageDataOf u m ci now)).timestamp)]) := by
  unfold handleChatMessage
  rw [hci]
  have hcond : (m.isNone || (m.getD []).isEmpty ||
      ((jsTrim (m.getD [])).length == 0)) = false := by
    rcases hb : (m.isNone || (m.getD []).isEmpty ||
      ((jsTrim (m.getD [])).length == 0)) with _ | _
    · rfl
    · exact absurd ((emptyGuard_iff m).mp hb) hne
  have hlen' : ¬ ((m.getD []).length > 1000) := by omega
  simp [hcond, hlen', messageDataOf, savedMessageOf]

theorem mapGet_mapSet_self (l : List (Nat × ClientInfo)) (k : Nat)
    (v : ClientInfo) : mapGet (mapSet l k v) k = some v := by
  induction l with
  | nil => simp [mapSet, mapGet]
  | cons p rest ih =>
    by_cases h : p.1 = k
    · simp [mapSet, mapGet, h]
    · simp [mapSet, mapGet, h, ih]

theorem mapGet_eq_none_of_not_mem (l : List (Nat × ClientInfo)) (k : Nat)
    (h : k ∉ l.map Prod.fst) : mapGet l k = none := by
  induction l with
  | nil => rfl
  | cons p rest ih =>
    simp only [List.map_cons, List.mem_cons, not_or] at h
    have hp : p.1 ≠ k := fun he => h.1 he.symm
    simp [mapGet, hp, ih h.2]

theorem mapGet_mapDelete_self (l : List (Nat × ClientInfo)) (k : Nat)
    (hnd : (l.map Prod.fst).Nodup) : mapGet (mapDelete l k) k = none := by
  induction l with
  | nil => rfl
  | cons p rest ih =>
    simp only [List.map_cons, List.nodup_cons] at hnd
    by_cases h : p.1 = k
    · subst h
      simp only [mapDelete, if_pos rfl]
      exact mapGet_eq_none_of_not_mem rest p.1 hnd.1
    · simp only [mapDelete, if_neg h, mapGet, if_neg h]
      exact ih hnd.2

theorem handleUserJoin_noClient (env : StoreEnv) (st : ServerState)
    (ws : Nat) (u : Option JStr) (now : Nat)
    (h : mapGet st.clients ws = none) :
    handleUserJoin env st ws u now = (st, []) := by
  unfold handleUserJoin
  rw [h]

theorem handleUserJoin_eq (env : StoreEnv) (st : ServerState)
    (ws : Nat) (u : Option JStr) (now : Nat) (ci : ClientInfo)
    (hci : mapGet st.clients ws = some ci) :
    handleUserJoin env st ws u now =
      ({ st with clients := mapSet st.clients ws ⟨jsOrStr u (jstr ("Anonymous"))⟩ },
        [.send ws (.history (sourcedHistory env st.messageHistory)),
         .broadcast (.system
           (jsOrStr u (jstr ("Anonymous")) ++ jstr (" joined the chat")) now)]) := by
  unfold handleUserJoin
  rw [hci]
  simp [sourcedHistory]

theorem sourcedHistory_length_le (env : StoreEnv) (buffer : List ChatMessage) :
    (sourcedHistory env buffer).length ≤ 50 := by
  unfold sourcedHistory
  split
  · split
    · rw [takeLast_length]; omega
    · exact fetchRecent50_length_le env.records
  · rw [takeLast_length]; omega

theorem sourcedHistory_sorted (env : StoreEnv) {buffer : List ChatMessage}
    (hb : buffer.Pairwise tsLE) :
    (sourcedHistory env buffer).Pairwise tsLE := by
  unfold sourcedHistory
  split
  · split
    · exact takeLast_sorted hb 50
    · exact fetchRecent50_sorted env.records
  · exact takeLast_sorted hb 50

theorem ringAppends_append (a b : List Effect) :
    ringAppends (a ++ b) = ringAppends a ++ ringAppends b := by
  simp [ringAppends, List.filterMap_append]

theorem handleFrame_step (env : StoreEnv) (st : ServerState) (ws : Nat)
    (f : Frame) (now : Nat) (h : st.messageHistory.length ≤ 100) :
    (handleFrame env st ws f now).1.messageHistory
      = takeLast 100
          (st.messageHistory ++ ringAppends (handleFrame env st ws f now).2) := by
  cases f with
  | join u =>
    rcases hci : mapGet st.clients ws with _ | ci
    · rw [handleFrame, handleUserJoin_noClient env st ws u now hci]
      simp [ringAppends, takeLast_of_le h]
    · rw [handleFrame, handleUserJoin_eq env st ws u now ci hci]
      simp [ringAppends, takeLast_of_le h]
  | message u m =>
    rcases hci : mapGet st.clients ws with _ | ci
    · rw [handleFrame, handleChatMessage_noClient env st ws u m now hci]
      simp [ringAppends, takeLast_of_le h]
    · by_cases hne : (jsTrim (m.getD [])).length = 0
      · rw [handleFrame, handleChatMessage_rejected_empty env st ws u m now ci hci hne]
        simp [ringAppends, takeLast_of_le h]
      · by_cases hlen : (m.getD []).length > 1000
        · rw [handleFrame,
            handleChatMessage_rejected_long env st ws u m now ci hci hne hlen]
          simp [ringAppends, takeLast_of_le h]
        · have hlen' : (m.getD []).length ≤ 1000 := by omega
          rw [handleFrame,
            handleChatMessage_accepted env st ws u m now ci hci hne hlen']
          cases hc : env.connected with
          | false => simp [ringAppends, ringPush_eq_takeLast]
          | true => simp [ringAppends, ringPush_eq_takeLast]

theorem runServer_messageHistory (steps : List Step) :
    ∀ st : ServerState, st.messageHistory.length ≤ 100 →
      (runServer st steps).1.messageHistory
        = takeLast 100
            (st.messageHistory ++ ringAppends (runServer st steps).2) := by
  induction steps with
  | nil =>
    intro st h
    simp [runServer, ringAppends, takeLast_of_le h]
  | cons s rest ih =>
    intro st h
    have h1 := handleFrame_step s.env st s.ws s.frame s.now h
    have hlen1 :
        (handleFrame s.env st s.ws s.frame s.now).1.messageHistory.length ≤ 100 := by
      rw [h1, takeLast_length]
      omega
    have h2 := ih (handleFrame s.env st s.ws s.frame s.now).1 hlen1
    simp only [runServer]
    rw [h2, h1, takeLast_append_takeLast, List.append_assoc, ringAppends_append]

/-- C1 (amended): for a message frame from a registered connection, the
body is rejected exactly when it is empty after trimming or when its
RAW (untrimmed) length exceeds 1000 characters — the length limit is
checked before trimming, not after.  On rejection the only effect is an
`error` event sent to the sender (no broadcast, no ring-buffer append,
no store write); a body that trims non-empty and whose raw length is at
most 1000 is accepted: its trimmed form is appended to the ring buffer
and broadcast. -/
theorem C1_body_validation (env : StoreEnv) (st : ServerState) (ws : Nat)
    (u m : Option JStr) (now : Nat) (ci : ClientInfo)
    (hci : mapGet st.clients ws = some ci) :
    ((jsTrim (m.getD [])).length = 0 →
      handleChatMessage env st ws u m now =
        (st, [.send ws (.error (jstr ("Message cannot be empty")))])) ∧
    ((jsTrim (m.getD [])).length ≠ 0 → 1000 < (m.getD []).length →
      handleChatMessage env st ws u m now =
        (st, [.send ws (.error (jstr ("Message too long (max 1000 characters)")))])) ∧
    ((jsTrim (m.getD [])).length ≠ 0 → (m.getD []).length ≤ 1000 →
      ringAppends (handleChatMessage env st ws u m now).2
          = [messageDataOf u m ci now] ∧
      Effect.broadcast (.message
          (savedMessageOf env (messageDataOf u m ci now)).username
          (savedMessageOf env (messageDataOf u m ci now)).message
          (savedMessageOf env (messageDataOf u m ci now)).timestamp)
        ∈ (handleChatMessage env st ws u m now).2) := by
  refine ⟨?_, ?_, ?_⟩
  · intro h
    exact handleChatMessage_rejected_empty env st ws u m now ci hci h
  · intro hne hlen
    exact handleChatMessage_rejected_long env st ws u m now ci hci hne hlen
  · intro hne hlen
    rw [handleChatMessage_accepted env st ws u m now ci hci hne hlen]
    cases hc : env.connected <;> simp [ringAppends]

/-- Witness for C1 at a concrete accepted input. -/
theorem C1_body_validation_witness :
    mapGet stTwo.clients 0 = some ⟨jstr ("alice")⟩ ∧
    (((jsTrim ((some (jstr ("hi"))).getD [])).length = 0 →
      handleChatMessage envDisconnected stTwo 0 (some (jstr ("alice")))
          (some (jstr ("hi"))) 7 =
        (stTwo, [.send 0 (.error (jstr ("Message cannot be empty")))])) ∧
    ((jsTrim ((some (jstr ("hi"))).getD [])).length ≠ 0 →
        1000 < ((some (jstr ("hi"))).getD []).length →
      handleChatMessage envDisconnected stTwo 0 (some (jstr ("alice")))
          (some (jstr ("hi"))) 7 =
        (stTwo, [.send 0 (.error (jstr ("Message too long (max 1000 characters)")))])) ∧
    ((jsTrim ((some (jstr ("hi"))).getD [])).length ≠ 0 →
        ((some (jstr ("hi"))).getD []).length ≤ 1000 →
      ringAppends (handleChatMessage envDisconnected stTwo 0
            (some (jstr ("alice"))) (some (jstr ("hi"))) 7).2
          = [messageDataOf (some (jstr ("alice"))) (some (jstr ("hi")))
              ⟨jstr ("alice")⟩ 7] ∧
      Effect.broadcast (.message
          (savedMessageOf envDisconnected (messageDataOf (some (jstr ("alice")))
            (some (jstr ("hi"))) ⟨jstr ("alice")⟩ 7)).username
          (savedMessageOf envDisconnected (messageDataOf (some (jstr ("alice")))
            (some (jstr ("hi"))) ⟨jstr ("alice")⟩ 7)).message
          (savedMessageOf envDisconnected (messageDataOf (some (jstr ("alice")))
            (some (jstr ("hi"))) ⟨jstr ("alice")⟩ 7)).timestamp)
        ∈ (handleChatMessage envDisconnected stTwo 0 (some (jstr ("alice")))
            (some (jstr ("hi"))) 7).2)) :=
  ⟨by decide,
    C1_body_validation envDisconnected stTwo 0 (some (jstr ("alice")))
      (some (jstr ("hi"))) 7 ⟨jstr ("alice")⟩ (by decide)⟩

set_option maxRecDepth 100000 in

/-- C1 counterexample: the body of 1000 letters plus one trailing space
has trimmed length 1000 (within the claimed accept range 1..1000) yet
is rejected with the too-long error, because the code measures the
limit on the raw body (length 1001), not after trimming. -/
theorem C1_counterexample :
    1 ≤ (jsTrim longBody).length ∧ (jsTrim longBody).length ≤ 1000 ∧
    handleChatMessage envDisconnected stTwo 0 (some (jstr ("alice")))
        (some longBody) 7 =
      (stTwo, [.send 0 (.error (jstr ("Message too long (max 1000 characters)")))]) := by
  refine ⟨by decide, by decide, ?_⟩
  decide

/-- C2 (amended): for an accepted message frame, the `ChatMessage` is
constructed with the server-assigned timestamp, then — when the
connectivity probe reports connected — persistence is attempted FIRST,
and only afterwards is the record appended to the ring buffer
(unconditionally, truncating to the last 100); a persistence failure
never blocks the broadcast, and the broadcast carries the persisted
record's fields when the save succeeded, else the locally constructed
record's fields. -/
theorem C2_accept_effects (env : StoreEnv) (st : ServerState) (ws : Nat)
    (u m : Option JStr) (now : Nat) (ci : ClientInfo)
    (hci : mapGet st.clients ws = some ci)
    (hne : (jsTrim (m.getD [])).length ≠ 0)
    (hlen : (m.getD []).length ≤ 1000) :
    handleChatMessage env st ws u m now =
      ({ st with
          messageHistory := ringPush st.messageHistory (messageDataOf u m ci now) },
        (if env.connected then [.storeAppend (messageDataOf u m ci now)] else []) ++
          [.ringAppend (messageDataOf u m ci now),
           .broadcast (.message
             (savedMessageOf env (messageDataOf u m ci now)).username
             (savedMessageOf env (messageDataOf u m ci now)).message
             (savedMessageOf env (messageDataOf u m ci now)).timestamp)]) ∧
    (messageDataOf u m ci now).timestamp = now :=
  ⟨handleChatMessage_accepted env st ws u m now ci hci hne hlen, rfl⟩

/-- Witness for C2 at a concrete accepted input with a connected
store. -/
theorem C2_accept_effects_witness :
    mapGet stTwo.clients 0 = some ⟨jstr ("alice")⟩ ∧
    (jsTrim ((some (jstr ("hi"))).getD [])).length ≠ 0 ∧
    ((some (jstr ("hi")) : Option JStr).getD []).length ≤ 1000 ∧
    (handleChatMessage envEcho stTwo 0 (some (jstr ("alice")))
        (some (jstr ("hi"))) 5 =
      ({ stTwo with
          messageHistory := ringPush stTwo.messageHistory
            (messageDataOf (some (jstr ("alice"))) (some (jstr ("hi")))
              ⟨jstr ("alice")⟩ 5) },
        (if envEcho.connected then
            [.storeAppend (messageDataOf (some (jstr ("alice")))
              (some (jstr ("hi"))) ⟨jstr ("alice")⟩ 5)]
          else []) ++
          [.ringAppend (messageDataOf (some (jstr ("alice")))
              (some (jstr ("hi"))) ⟨jstr ("alice")⟩ 5),
           .broadcast (.message
             (savedMessageOf envEcho (messageDataOf (some (jstr ("alice")))
               (some (jstr ("hi"))) ⟨jstr ("alice")⟩ 5)).username
             (savedMessageOf envEcho (messageDataOf (some (jstr ("alice")))
               (some (jstr ("hi"))) ⟨jstr ("alice")⟩ 5)).message
             (savedMessageOf envEcho (messageDataOf (some (jstr ("alice")))
               (some (jstr ("hi"))) ⟨jstr ("alice")⟩ 5)).timestamp)]) ∧
      (messageDataOf (some (jstr ("alice"))) (some (jstr ("hi")))
        ⟨jstr ("alice")⟩ 5).timestamp = 5) :=
  ⟨by decide, by decide, by decide,
    C2_accept_effects envEcho stTwo 0 (some (jstr ("alice")))
      (some (jstr ("hi"))) 5 ⟨jstr ("alice")⟩ (by decide) (by decide) (by decide)⟩

/-- C2 counterexample: in the effect trace of an accepted message with
a connected store, the store-write attempt occurs at index 0, strictly
before the ring-buffer append at index 1 — refuting the claimed order
(ring-buffer append first, persistence only afterwards). -/
theorem C2_counterexample :
    (handleChatMessage envEcho stTwo 0 (some (jstr ("alice")))
        (some (jstr ("hi"))) 5).2
      = [.storeAppend ⟨jstr ("alice"), jstr ("hi"), 5⟩,
         .ringAppend ⟨jstr ("alice"), jstr ("hi"), 5⟩,
         .broadcast (.message (jstr ("alice")) (jstr ("hi")) 5)] ∧
    (handleChatMessage envEcho stTwo 0 (some (jstr ("alice")))
        (some (jstr ("hi"))) 5).2.findIdx isStoreAppend = 0 ∧
    (handleChatMessage envEcho stTwo 0 (some (jstr ("alice")))
        (some (jstr ("hi"))) 5).2.findIdx isRingAppend = 1 := by
  decide

/-- C3 (amended): each disconnect signal removes the registry entry
synchronously and then broadcasts exactly one leave event (to the
connections remaining after the removal), naming the session's
last-known display name — "Anonymous" when the connection never joined
or when the entry was already removed.  Because the handler broadcasts
unconditionally, a second disconnect signal for the same connection
produces a second leave event, naming "Anonymous". -/
theorem C3_disconnect (st : ServerState) (ws : Nat) (now : Nat)
    (hnd : (st.clients.map Prod.fst).Nodup) :
    handleDisconnection st ws now =
      ({ st with clients := mapDelete st.clients ws },
        [.broadcast (.system (lastKnownName st ws ++ jstr (" left the chat")) now)]) ∧
    mapGet ((handleDisconnection st ws now).1.clients) ws = none ∧
    (mapGet st.clients ws = none → lastKnownName st ws = jstr ("Anonymous")) ∧
    (∀ now2 : Nat,
      (handleDisconnection (handleDisconnection st ws now).1 ws now2).2
        = [.broadcast (.system
            (jstr ("Anonymous") ++ jstr (" left the chat")) now2)]) := by
  refine ⟨rfl, ?_, ?_, ?_⟩
  · exact mapGet_mapDelete_self st.clients ws hnd
  · intro h
    simp [lastKnownName, h]
  · intro now2
    have hg : mapGet (mapDelete st.clients ws) ws = none :=
      mapGet_mapDelete_self st.clients ws hnd
    simp [handleDisconnection, lastKnownName, hg]

/-- Witness for C3 at a concrete two-client registry. -/
theorem C3_disconnect_witness :
    (stTwo.clients.map Prod.fst).Nodup ∧
    (handleDisconnection stTwo 0 5 =
      ({ stTwo with clients := mapDelete stTwo.clients 0 },
        [.broadcast (.system (lastKnownName stTwo 0 ++ jstr (" left the chat")) 5)]) ∧
    mapGet ((handleDisconnection stTwo 0 5).1.clients) 0 = none ∧
    (mapGet stTwo.clients 0 = none → lastKnownName stTwo 0 = jstr ("Anonymous")) ∧
    (∀ now2 : Nat,
      (handleDisconnection (handleDisconnection stTwo 0 5).1 0 now2).2
        = [.broadcast (.system
            (jstr ("Anonymous") ++ jstr (" left the chat")) now2)])) :=
  ⟨by decide, C3_disconnect stTwo 0 5 (by decide)⟩

/-- C3 counterexample: a second disconnect signal for connection 0
(close after error, as both callbacks invoke the handler) broadcasts a
second leave event, "Anonymous left the chat" — refuting the claim that
a double disconnect signal produces no second leave event. -/
theorem C3_counterexample :
    (handleDisconnection (handleDisconnection stTwo 0 5).1 0 6).2
      = [.broadcast (.system (jstr ("Anonymous left the chat")) 6)] := by
  decide

/-- C4 (amended): on a join frame the display name is set to
`username || "Anonymous"`: the fallback applies only when the frame's
username is absent or the empty string.  A whitespace-only username is
truthy and is kept verbatim, NOT replaced by "Anonymous". -/
theorem C4_join_username (env : StoreEnv) (st : ServerState) (ws : Nat)
    (u : Option JStr) (now : Nat) (ci : ClientInfo)
    (hci : mapGet st.clients ws = some ci) :
    mapGet ((handleUserJoin env st ws u now).1.clients) ws
      = some ⟨jsOrStr u (jstr ("Anonymous"))⟩ ∧
    ((u = none ∨ u = some []) →
      jsOrStr u (jstr ("Anonymous")) = jstr ("Anonymous")) ∧
    (∀ s : JStr, u = some s → s ≠ [] → jsOrStr u (jstr ("Anonymous")) = s) := by
  refine ⟨?_, ?_, ?_⟩
  · rw [handleUserJoin_eq env st ws u now ci hci]
    exact mapGet_mapSet_self st.clients ws _
  · rintro (rfl | rfl) <;> rfl
  · rintro s rfl hs
    cases s with
    | nil => exact absurd rfl hs
    | cons c cs => rfl

/-- Witness for C4 at a concrete join with an explicit username. -/
theorem C4_join_username_witness :
    mapGet stTwo.clients 1 = some ⟨jstr ("bob")⟩ ∧
    (mapGet ((handleUserJoin envDisconnected stTwo 1
          (some (jstr ("carol"))) 9).1.clients) 1
        = some ⟨jsOrStr (some (jstr ("carol"))) (jstr ("Anonymous"))⟩ ∧
    (((some (jstr ("carol")) : Option JStr) = none ∨
        (some (jstr ("carol")) : Option JStr) = some []) →
      jsOrStr (some (jstr ("carol"))) (jstr ("Anonymous")) = jstr ("Anonymous")) ∧
    (∀ s : JStr, (some (jstr ("carol")) : Option JStr) = some s → s ≠ [] →
      jsOrStr (some (jstr ("carol"))) (jstr ("Anonymous")) = s)) :=
  ⟨by decide,
    C4_join_username envDisconnected stTwo 1 (some (jstr ("carol"))) 9
      ⟨jstr ("bob")⟩ (by decide)⟩

/-- C4 counterexample: a whitespace-only username (a single space) is
stored verbatim as the session's display name — it is not replaced by
"Anonymous", refuting the claim for whitespace-only usernames. -/
theorem C4_counterexample :
    mapGet ((handleUserJoin envDisconnected stTwo 0 (some [' ']) 3).1.clients) 0
      = some ⟨[' ']⟩ ∧
    jsTrim [' '] = [] ∧
    ([' '] : JStr) ≠ jstr ("Anonymous") := by
  decide

/-- C5: over any sequence of handled join and message frames the ring
buffer after the run equals the last 100 of the initial buffer extended
by the accepted messages in acceptance order — so it never exceeds 100
entries, holds exactly the most recently accepted messages, preserves
their order, and evicts oldest first.  Every prefix of a run is itself
a run, so the invariant holds after each handler completes. -/
theorem C5_ring_invariant (steps : List Step) (st : ServerState)
    (h : st.messageHistory.length ≤ 100) :
    (runServer st steps).1.messageHistory
      = takeLast 100
          (st.messageHistory ++ ringAppends (runServer st steps).2) ∧
    (runServer st steps).1.messageHistory.length ≤ 100 := by
  refine ⟨runServer_messageHistory steps st h, ?_⟩
  rw [runServer_messageHistory steps st h, takeLast_length]
  omega

/-- Witness for C5 on a concrete three-frame run. -/
theorem C5_ring_invariant_witness :
    stTwo.messageHistory.length ≤ 100 ∧
    ((runServer stTwo stepsDemo).1.messageHistory
      = takeLast 100
          (stTwo.messageHistory ++ ringAppends (runServer stTwo stepsDemo).2) ∧
    (runServer stTwo stepsDemo).1.messageHistory.length ≤ 100) :=
  ⟨by decide, C5_ring_invariant stepsDemo stTwo (by decide)⟩

/-- C6: on a join frame from a registered connection the history event
is sent to the joining connection only (the sole other effect is the
join announcement broadcast), has length at most 50, is ordered oldest
to newest (given a buffer in timestamp order), and is sourced from the
store's 50 most recent records when the probe reports connected and the
fetch succeeds, else from the last 50 ring-buffer entries. -/
theorem C6_history_source (env : StoreEnv) (st : ServerState) (ws : Nat)
    (u : Option JStr) (now : Nat) (ci : ClientInfo)
    (hci : mapGet st.clients ws = some ci)
    (hsorted : st.messageHistory.Pairwise tsLE) :
    (handleUserJoin env st ws u now).2
      = [.send ws (.history (sourcedHistory env st.messageHistory)),
         .broadcast (.system
           (jsOrStr u (jstr ("Anonymous")) ++ jstr (" joined the chat")) now)] ∧
    (sourcedHistory env st.messageHistory).length ≤ 50 ∧
    (sourcedHistory env st.messageHistory).Pairwise tsLE ∧
    (env.connected = true → env.fetchFails = false →
      sourcedHistory env st.messageHistory = fetchRecent50 env.records) ∧
    (env.connected = false ∨ env.fetchFails = true →
      sourcedHistory env st.messageHistory = takeLast 50 st.messageHistory) := by
  refine ⟨?_, sourcedHistory_length_le env st.messageHistory,
    sourcedHistory_sorted env hsorted, ?_, ?_⟩
  · rw [handleUserJoin_eq env st ws u now ci hci]
  · intro hc hf
    simp [sourcedHistory, hc, hf]
  · rintro (hc | hf)
    · simp [sourcedHistory, hc]
    · simp [sourcedHistory, hf]

/-- Witness for C6 at a concrete join with the store disconnected. -/
theorem C6_history_source_witness :
    mapGet stTwo.clients 0 = some ⟨jstr ("alice")⟩ ∧
    ((handleUserJoin envDisconnected stTwo 0 (some (jstr ("dave"))) 4).2
      = [.send 0 (.history (sourcedHistory envDisconnected stTwo.messageHistory)),
         .broadcast (.system
           (jsOrStr (some (jstr ("dave"))) (jstr ("Anonymous"))
             ++ jstr (" joined the chat")) 4)] ∧
    (sourcedHistory envDisconnected stTwo.messageHistory).length ≤ 50 ∧
    (sourcedHistory envDisconnected stTwo.messageHistory).Pairwise tsLE ∧
    (envDisconnected.connected = true → envDisconnected.fetchFails = false →
      sourcedHistory envDisconnected stTwo.messageHistory
        = fetchRecent50 envDisconnected.records) ∧
    (envDisconnected.connected = false ∨ envDisconnected.fetchFails = true →
      sourcedHistory envDisconnected stTwo.messageHistory
        = takeLast 50 stTwo.messageHistory)) :=
  ⟨by decide,
    C6_history_source envDisconnected stTwo 0 (some (jstr ("dave"))) 4
      ⟨jstr ("alice")⟩ (by decide) List.Pairwise.nil⟩

/-- C7: five consecutive unclean closures from a fresh client schedule
delays of exactly 1000, 2000, 4000, 8000 and 10000 ms (the exponential
value 16000 for the 5th attempt is capped at 10000), a 6th unclean
closure schedules nothing, and a clean closure never schedules a
reconnect. -/
theorem C7_reconnect_backoff :
    (runCloses initialClient 5).2 = [1000, 2000, 4000, 8000, 10000] ∧
    1000 * 2 ^ (5 - 1) = 16000 ∧
    min (1000 * 2 ^ (5 - 1)) 10000 = 10000 ∧
    (wsOnClose (runCloses initialClient 5).1 false).2 = none ∧
    (∀ cs : ClientState, wsOnClose cs true = (cs, none)) := by
  refine ⟨by decide, by decide, by decide, by decide, ?_⟩
  intro cs
  simp [wsOnClose]

/-- C8 (amended): when the close handler schedules a reconnect timer it
appends a fresh timer and overwrites the ref WITHOUT cancelling any
previously pending timer — all previously pending timers remain, so
when one was pending, two pending timers coexist after scheduling;
nothing in the close handler enforces the at-most-one-pending-timer
invariant (only the effect cleanup on unmount or username change
cancels, and only the timer currently in the ref). -/
theorem C8_schedule_keeps_pending (cs : ClientState)
    (h : cs.reconnectAttempts < maxReconnectAttempts) :
    (wsOnClose cs false).1.pendingTimers
      = cs.pendingTimers ++ [cs.nextTimerId] ∧
    (wsOnClose cs false).1.timerRef = some cs.nextTimerId ∧
    (cs.pendingTimers ≠ [] →
      2 ≤ (wsOnClose cs false).1.pendingTimers.length) := by
  refine ⟨?_, ?_, ?_⟩
  · simp [wsOnClose, h]
  · simp [wsOnClose, h]
  · intro hne
    have hp : 0 < cs.pendingTimers.length := List.length_pos.mpr hne
    simp [wsOnClose, h]
    omega

/-- Witness for C8 from the state with one timer already pending. -/
theorem C8_schedule_keeps_pending_witness :
    clientAfterOneClose.reconnectAttempts < maxReconnectAttempts ∧
    ((wsOnClose clientAfterOneClose false).1.pendingTimers
      = clientAfterOneClose.pendingTimers ++ [clientAfterOneClose.nextTimerId] ∧
    (wsOnClose clientAfterOneClose false).1.timerRef
      = some clientAfterOneClose.nextTimerId ∧
    (clientAfterOneClose.pendingTimers ≠ [] →
      2 ≤ (wsOnClose clientAfterOneClose false).1.pendingTimers.length)) :=
  ⟨by decide, C8_schedule_keeps_pending clientAfterOneClose (by decide)⟩

/-- C8 counterexample: after two scheduling events with no timer fired
or cancelled in between, both timers 0 and 1 are pending simultaneously
— the first was never cancelled, refuting the claim that an existing
pending timer is always cancelled before scheduling. -/
theorem C8_counterexample :
    (wsOnClose (wsOnClose initialClient false).1 false).1.pendingTimers
      = [0, 1] ∧
    2 ≤ (wsOnClose (wsOnClose initialClient false).1 false).1.pendingTimers.length := by
  decide

/-- C9 (amended): the WebSocket handler performs NO username-length
validation — for any accepted message frame the username (frame field,
or the session's stored name when the field is falsy) is used verbatim
in the ring-buffer entry and, when persistence does not succeed, as the
broadcast sender name, regardless of its length.  The 50-character
username limit exists only in the store schema (`Message.js`), which
rejects such a record at persistence time. -/
theorem C9_no_username_limit (env : StoreEnv) (st : ServerState) (ws : Nat)
    (u m : Option JStr) (now : Nat) (ci : ClientInfo)
    (hci : mapGet st.clients ws = some ci)
    (hne : (jsTrim (m.getD [])).length ≠ 0)
    (hlen : (m.getD []).length ≤ 1000) :
    ringAppends (handleChatMessage env st ws u m now).2
      = [messageDataOf u m ci now] ∧
    (messageDataOf u m ci now).username = jsOrStr u ci.username ∧
    (env.connected = false →
      Effect.broadcast (.message (jsOrStr u ci.username) (jsTrim (m.getD [])) now)
        ∈ (handleChatMessage env st ws u m now).2) ∧
    (∀ mm : ChatMessage, 50 < (jsTrim mm.username).length →
      messageSchemaValid mm = false) := by
  refine ⟨?_, rfl, ?_, ?_⟩
  · rw [handleChatMessage_accepted env st ws u m now ci hci hne hlen]
    cases hc : env.connected <;> simp [ringAppends]
  · intro hc
    rw [handleChatMessage_accepted env st ws u m now ci hci hne hlen]
    simp [savedMessageOf, hc, messageDataOf]
  · intro mm hlong
    have hn : ¬ ((jsTrim mm.username).length ≤ 50) := by omega
    simp [messageSchemaValid, hn]

/-- Witness for C9 at a concrete accepted frame. -/
theorem C9_no_username_limit_witness :
    mapGet stTwo.clients 0 = some ⟨jstr ("alice")⟩ ∧
    (jsTrim ((some (jstr ("hi"))).getD [])).length ≠ 0 ∧
    ((some (jstr ("hi")) : Option JStr).getD []).length ≤ 1000 ∧
    (ringAppends (handleChatMessage envDisconnected stTwo 0 (some longName)
          (some (jstr ("hi"))) 3).2
        = [messageDataOf (some longName) (some (jstr ("hi"))) ⟨jstr ("alice")⟩ 3] ∧
    (messageDataOf (some longName) (some (jstr ("hi"))) ⟨jstr ("alice")⟩ 3).username
        = jsOrStr (some longName) (⟨jstr ("alice")⟩ : ClientInfo).username ∧
    (envDisconnected.connected = false →
      Effect.broadcast (.message (jsOrStr (some longName) (⟨jstr ("alice")⟩ : ClientInfo).username)
          (jsTrim ((some (jstr ("hi"))).getD [])) 3)
        ∈ (handleChatMessage envDisconnected stTwo 0 (some longName)
            (some (jstr ("hi"))) 3).2) ∧
    (∀ mm : ChatMessage, 50 < (jsTrim mm.username).length →
      messageSchemaValid mm = false)) :=
  ⟨by decide, by decide, by decide,
    C9_no_username_limit envDisconnected stTwo 0 (some longName)
      (some (jstr ("hi"))) 3 ⟨jstr ("alice")⟩ (by decide) (by decide) (by decide)⟩

/-- C9 counterexample: a 51-character username (51 chars after trimming
too) is stored in the ring buffer and used as the broadcast sender name
— no 50-character limit is enforced before these side effects, refuting
the claim; the store schema itself would reject the record. -/
theorem C9_counterexample :
    (jsTrim longName).length = 51 ∧
    (handleChatMessage envDisconnected stTwo 0 (some longName)
        (some (jstr ("hi"))) 3).1.messageHistory
      = [⟨longName, jstr ("hi"), 3⟩] ∧
    Effect.broadcast (.message longName (jstr ("hi")) 3)
      ∈ (handleChatMessage envDisconnected stTwo 0 (some longName)
          (some (jstr ("hi"))) 3).2 ∧
    messageSchemaValid ⟨longName, jstr ("hi"), 3⟩ = false := by
  refine ⟨by decide, by decide, by decide, by decide⟩

/-- C10: for an accepted message frame the record appended to the ring
buffer is always the locally constructed one (frame username or session
name, trimmed body, server-assigned timestamp), even when persistence
succeeds and the store returns a record `rec` with different fields; the
broadcast then carries `rec`'s fields, so the ring-buffer entry and the
broadcast payload differ whenever the store rewrites any field. -/
theorem C10_ring_gets_local_record (env : StoreEnv) (st : ServerState)
    (ws : Nat) (u m : Option JStr) (now : Nat) (ci : ClientInfo)
    (rec : ChatMessage)
    (hci : mapGet st.clients ws = some ci)
    (hne : (jsTrim (m.getD [])).length ≠ 0)
    (hlen : (m.getD []).length ≤ 1000)
    (hconn : env.connected = true)
    (hsave : env.saveResult (messageDataOf u m ci now) = some rec) :
    (handleChatMessage env st ws u m now).1.messageHistory
      = ringPush st.messageHistory (messageDataOf u m ci now) ∧
    ringAppends (handleChatMessage env st ws u m now).2
      = [messageDataOf u m ci now] ∧
    Effect.broadcast (.message rec.username rec.message rec.timestamp)
      ∈ (handleChatMessage env st ws u m now).2 ∧
    (messageDataOf u m ci now).timestamp = now := by
  refine ⟨?_, ?_, ?_, rfl⟩
  · rw [handleChatMessage_accepted env st ws u m now ci hci hne hlen]
  · rw [handleChatMessage_accepted env st ws u m now ci hci hne hlen]
    simp [ringAppends, hconn]
  · rw [handleChatMessage_accepted env st ws u m now ci hci hne hlen]
    simp [savedMessageOf, hconn, hsave]

/-- Witness for C10 with a store that rewrites the timestamp: the ring
buffer keeps the local record with timestamp 5 while the broadcast
carries the persisted record with timestamp 6. -/
theorem C10_ring_gets_local_record_witness :
    mapGet stTwo.clients 0 = some ⟨jstr ("alice")⟩ ∧
    (jsTrim ((some (jstr ("hi"))).getD [])).length ≠ 0 ∧
    ((some (jstr ("hi")) : Option JStr).getD []).length ≤ 1000 ∧
    envRewrites.connected = true ∧
    envRewrites.saveResult (messageDataOf (some (jstr ("alice")))
        (some (jstr ("hi"))) ⟨jstr ("alice")⟩ 5)
      = some ⟨jstr ("alice"), jstr ("hi"), 6⟩ ∧
    ((handleChatMessage envRewrites stTwo 0 (some (jstr ("alice")))
        (some (jstr ("hi"))) 5).1.messageHistory
      = ringPush stTwo.messageHistory (messageDataOf (some (jstr ("alice")))
          (some (jstr ("hi"))) ⟨jstr ("alice")⟩ 5) ∧
    ringAppends (handleChatMessage envRewrites stTwo 0 (some (jstr ("alice")))
        (some (jstr ("hi"))) 5).2
      = [messageDataOf (some (jstr ("alice"))) (some (jstr ("hi")))
          ⟨jstr ("alice")⟩ 5] ∧
    Effect.broadcast (.message (jstr ("alice")) (jstr ("hi")) 6)
      ∈ (handleChatMessage envRewrites stTwo 0 (some (jstr ("alice")))
          (some (jstr ("hi"))) 5).2 ∧
    (messageDataOf (some (jstr ("alice"))) (some (jstr ("hi")))
        ⟨jstr ("alice")⟩ 5).timestamp = 5) :=
  ⟨by decide, by decide, by decide, by decide, by decide,
    C10_ring_gets_local_record envRewrites stTwo 0 (some (jstr ("alice")))
      (some (jstr ("hi"))) 5 ⟨jstr ("alice")⟩ ⟨jstr ("alice"), jstr ("hi"), 6⟩
      (by decide) (by decide) (by decide) (by decide) (by decide)⟩

